import Mathlib

/-!
Shallow embedding of `src/keanus_candy/models/newperson.py` (classes
`Person`, `User`, `Staff`) for the CandyStore class-diagram repository.

Python objects become Lean structures; mutating methods become functions
returning the updated value.  A method that can `raise` returns
`Except PyErr α × User`: the second component is the object's state when
the call returns or raises (the source raises before any mutation on
every failure path, and the embedding mirrors the exact position of the
`raise` in the control flow).  Python `ValueError` is the single concrete
exception class used by the source; it is embedded as `PyErr.valueError`
carrying the message string.

The collaborator classes `ShoppingCart`, `Candy`, `Order`,
`PaymentMethod` live in modules of this repository that are not under
`src/` (e.g. `newshopping.py`, imported by `newperson.py`); they are
modelled from the spec, see the individual doc comments.
-/

deriving instance DecidableEq for Except

namespace CandyStore

/-- Python exception values thrown by this layer.  The source raises only
the built-in class `ValueError`, always with a message. -/
inductive PyErr where
  | valueError (msg : String) : PyErr
deriving DecidableEq, Repr

/-- The Python class of an exception value, as a caller's `except` clause
would see it. -/
def PyErr.className : PyErr → String
  | .valueError _ => "ValueError"

/-- The message carried by an exception value. -/
def PyErr.msg : PyErr → String
  | .valueError m => m

/-- Modelled from the spec: the `Candy` inventory item is a collaborator
class that is not under `src/`.  Per the spec's external-interface
contract it has a mutable `quantity: number` field settable by Staff;
a name and a price are included so that carts and orders have content. -/
structure Candy where
  name : String
  price : ℚ
  quantity : Int
deriving DecidableEq, Repr

/-- Modelled from the spec: `PaymentMethod` is an "opaque token passed
through to cart order creation"; it is embedded as a wrapped string. -/
structure PaymentMethod where
  method : String
deriving DecidableEq, Repr

/-- Modelled from the spec: `Order` is a collaborator class not under
`src/`; the spec's contract gives it a readable `totalAmount: number`
field.  The payment method is kept so orders created from different
payment methods are distinct values. -/
structure Order where
  total_amount : ℚ
  payment_method : PaymentMethod
deriving DecidableEq, Repr

/-- Modelled from the spec: `ShoppingCart` (the repository file
`newshopping.py` is not under `src/`).  Per the spec it is an "external
collaborator accumulating items pre-purchase" with methods
`addItem(item, quantity)`, `createOrder(paymentMethod)` and `clear()`,
"owned by this user".  It is embedded as the owner's id plus the list of
(item, quantity) pairs added so far.  The spec gives it no `__bool__` or
`__len__`, so a `ShoppingCart` instance is truthy under Python's default
object truthiness regardless of its contents. -/
structure ShoppingCart where
  owner_id : Int
  items : List (Candy × Int)
deriving DecidableEq, Repr

/-- Modelled from the spec: `cart.addItem(item, quantity)` — "quantity
aggregation/validation is the cart's responsibility, out of scope here";
the embedding records the addition at the end of the item list. -/
def ShoppingCart.add_item (c : ShoppingCart) (candy : Candy) (quantity : Int) :
    ShoppingCart :=
  { c with items := c.items ++ [(candy, quantity)] }

/-- Modelled from the spec: `cart.createOrder(paymentMethod)` asks the
cart "to materialize an `Order` from `paymentMethod`" (opaque); the
embedding totals price × quantity over the cart's items. -/
def ShoppingCart.create_order (c : ShoppingCart) (pm : PaymentMethod) : Order :=
  { total_amount := (c.items.map (fun p => p.1.price * (p.2 : ℚ))).sum
    payment_method := pm }

/-- Modelled from the spec: `cart.clear()` — "cart becomes empty but
remains allocated". -/
def ShoppingCart.clear (c : ShoppingCart) : ShoppingCart :=
  { c with items := [] }

/-- Python truthiness of the optional `_cart` field: `None` is falsy, and
a `ShoppingCart` instance is always truthy (the spec's contract for the
collaborator defines no `__bool__`/`__len__`, so Python's default object
truthiness applies).  This is the test `if not self._cart:` evaluates. -/
def cartTruthy : Option ShoppingCart → Bool
  | none => false
  | some _ => true

/-- The `User` class of `newperson.py` (the `Person` base-class fields
`person_id`, `name`, `email` are flattened into the record, as Python
inheritance lays them out on the same object).  Protected fields
`_password`, `_orders`, `_cart` are `password`, `orders`, `cart`. -/
structure User where
  person_id : Int
  name : String
  email : String
  password : String
  orders : List Order
  cart : Option ShoppingCart
  email_verified : Bool
deriving DecidableEq, Repr

/-- `User.__init__`: stores identity and password, starts with no orders,
no cart, and `email_verified = False`. -/
def User.init (user_id : Int) (name email password : String) : User :=
  { person_id := user_id
    name := name
    email := email
    password := password
    orders := []
    cart := none
    email_verified := false }

/-- `Person.display_info`: `f"{self.name} ({self.email})"`. -/
def User.display_info (u : User) : String :=
  u.name ++ " (" ++ u.email ++ ")"

/-- `User.login`: `return self.email == email and self._password == password`. -/
def User.login (u : User) (email password : String) : Bool :=
  u.email == email && u.password == password

/-- Python `c in s` for a one-character needle `c` (the source tests the
one-character strings `"@"` and `"."`, for which substring containment
is character containment).  Computed structurally on the character list
so that concrete instances evaluate. -/
def pyCharIn (c : Char) (s : String) : Bool :=
  s.data.contains c

/-- Python's notion of whitespace for `str.strip()` (CPython's
`Py_UNICODE_ISSPACE`): `\t`–`\r` (0x09–0x0D, including `\v` and `\f`),
the separators 0x1C–0x1F, the space 0x20, NEL 0x85, NBSP 0xA0, Ogham
space 0x1680, the Unicode spaces 0x2000–0x200A, line separator 0x2028,
paragraph separator 0x2029, narrow NBSP 0x202F, medium mathematical
space 0x205F and ideographic space 0x3000. -/
def pyIsSpace (c : Char) : Bool :=
  let n := c.toNat
  (0x09 ≤ n && n ≤ 0x0D) || (0x1C ≤ n && n ≤ 0x1F) || n == 0x20
    || n == 0x85 || n == 0xA0 || n == 0x1680
    || (0x2000 ≤ n && n ≤ 0x200A) || n == 0x2028 || n == 0x2029
    || n == 0x202F || n == 0x205F || n == 0x3000

/-- Python `s.strip()`: drop Python-whitespace (`pyIsSpace`) from both
ends.  Computed structurally on the character list. -/
def pyStrip (s : String) : String :=
  ⟨((s.data.dropWhile pyIsSpace).reverse.dropWhile pyIsSpace).reverse⟩

/-- The substring of `email` after its last `"@"`: Python
`self.email.split("@")[-1]`.  (`str.split` on a non-empty separator
always returns a non-empty list whose last element is the suffix after
the last occurrence of the separator — here computed as the longest
`'@'`-free suffix, which agrees with it also when `"@"` is absent, where
both give the whole string.) -/
def emailDomain (email : String) : String :=
  ⟨(email.data.reverse.takeWhile (fun c => c != '@')).reverse⟩

/-- `User.validate`: raises `ValueError` on a negative id, a blank name,
or an email lacking `"@"` or lacking `"."` after the last `"@"`; returns
`None` otherwise.  The source's `isinstance` guards are always satisfied
in the typed embedding (`person_id : Int`, `name : String`). -/
def User.validate (u : User) : Except PyErr Unit :=
  if u.person_id < 0 then
    .error (.valueError "person_id must be a non-negative int")
  else if pyStrip u.name = "" then
    .error (.valueError "name must be a non-empty string")
  else if !(pyCharIn '@' u.email) || !(pyCharIn '.' (emailDomain u.email)) then
    .error (.valueError "email appears invalid")
  else
    .ok ()

/-- `User.change_password`: wrong old password returns `False` without
mutation; then a new password shorter than 8 characters raises
`ValueError` (still no mutation); otherwise the stored password is
replaced and `True` is returned. -/
def User.change_password (u : User) (old_password new_password : String) :
    Except PyErr Bool × User :=
  if u.password ≠ old_password then
    (.ok false, u)
  else if new_password.length < 8 then
    (.error (.valueError "new_password must be at least 8 characters"), u)
  else
    (.ok true, { u with password := new_password })

/-- `User.add_to_cart`: `if not self._cart:` create `ShoppingCart(self)`
(the only falsy value of `_cart` is `None`, see `cartTruthy`); then
delegate to `self._cart.add_item(candy, quantity)`. -/
def User.add_to_cart (u : User) (candy : Candy) (quantity : Int) : User :=
  let c :=
    match u.cart with
    | none => ShoppingCart.mk u.person_id []
    | some c0 => c0
  { u with cart := some (c.add_item candy quantity) }

/-- `User.checkout`: `if not self._cart:` raise `ValueError("Cart is
empty")` (the only falsy value of `_cart` is `None`, see `cartTruthy`);
otherwise create the order from the cart, append it to `_orders`, clear
the cart, and return the order. -/
def User.checkout (u : User) (pm : PaymentMethod) : Except PyErr Order × User :=
  match u.cart with
  | none => (.error (.valueError "Cart is empty"), u)
  | some c =>
      let order := c.create_order pm
      (.ok order,
        { u with orders := u.orders ++ [order], cart := some c.clear })

/-- `User.get_orders`: `return self._orders.copy()` — as a value, the
copy has the same contents (the aliasing aspect of the copy is embedded
separately in the heap view below). -/
def User.get_orders (u : User) : List Order :=
  u.orders

/-- `User.get_cart`: `return self._cart`. -/
def User.get_cart (u : User) : Option ShoppingCart :=
  u.cart

/-- The `Staff` class: a `User` plus a `position` string. -/
structure Staff extends User where
  position : String
deriving DecidableEq, Repr

/-- `Staff.__init__`. -/
def Staff.init (user_id : Int) (name email password position : String) : Staff :=
  { User.init user_id name email password with position := position }

/-- `Staff.update_inventory`: `candy.quantity = new_quantity`, returning
the mutated candy. -/
def Staff.update_inventory (_s : Staff) (candy : Candy) (new_quantity : Int) :
    Candy :=
  { candy with quantity := new_quantity }

/-- Round a rational to the nearest integer, ties to even — the rounding
Python's fixed-point formatting applies to an exactly representable
value.  Computed on the reduced numerator and denominator: the floor is
the Euclidean quotient (the denominator is positive), and the fractional
remainder `r/d` is compared with `1/2` by comparing `2*r` with `d`. -/
def roundHalfEven (q : ℚ) : ℤ :=
  let n := q.num
  let d : ℤ := (q.den : ℤ)
  let f := Int.ediv n d
  let r := Int.emod n d
  if 2 * r < d then f
  else if d < 2 * r then f + 1
  else if Int.emod f 2 = 0 then f else f + 1

/-- Render an integer number of cents as a decimal string with exactly
two digits after the point, as Python's `f"{x:.2f}"` renders `x`. -/
def formatCents (c : ℤ) : String :=
  let a := c.natAbs
  (if c < 0 then "-" else "")
    ++ toString (a / 100) ++ "."
    ++ (if a % 100 < 10 then "0" else "") ++ toString (a % 100)

/-- Python `f"{t:.2f}"` on an exactly representable amount `t`. -/
def formatTwoDecimals (t : ℚ) : String :=
  formatCents (roundHalfEven (t * 100))

/-- `Staff.view_sales_report`: sums `total_amount` over the argument list
and renders `f"Total sales: ${total:.2f}"`.  It reads nothing from
`self` (`this.orders` is not consulted). -/
def Staff.view_sales_report (_s : Staff) (orders : List Order) : String :=
  let total : ℚ := (orders.map Order.total_amount).sum
  "Total sales: $" ++ formatTwoDecimals total

/-! ### Operation sequences over a user

For the lifecycle invariants, an arbitrary interleaving of cart
operations is a list of `StoreOp`s folded over the user.  A raising
`checkout` leaves the state as it was (the source raises before any
mutation). -/

/-- A cart-affecting operation a caller can perform on a `User`. -/
inductive StoreOp where
  | add (candy : Candy) (quantity : Int) : StoreOp
  | pay (pm : PaymentMethod) : StoreOp
deriving DecidableEq, Repr

/-- Run one operation on the user, keeping the state at the point of a
raise (for `checkout` on a cartless user, the state is unchanged). -/
def User.applyOp (u : User) : StoreOp → User
  | .add candy q => u.add_to_cart candy q
  | .pay pm => (u.checkout pm).2

/-- Run a sequence of operations left to right. -/
def User.runOps (u : User) (ops : List StoreOp) : User :=
  ops.foldl User.applyOp u

/-- The in-place mutations a run of operations performs on an
already-existing cart: `add_to_cart` delegates `add_item` to it, and
`checkout` (which always succeeds when a cart exists) `clear`s it. -/
def ShoppingCart.traceOp (c : ShoppingCart) : StoreOp → ShoppingCart
  | .add candy q => c.add_item candy q
  | .pay _ => c.clear

/-! ### Heap view of `get_orders` (list aliasing)

`User.get_orders` returns `self._orders.copy()`.  Whether the *copy*
matters is a statement about Python list objects and aliasing, so the
order-history list is modelled here as a cell in a small heap of list
objects: the user holds a reference `orders_ref`, `.copy()` allocates a
fresh cell with the same contents, and mutating one cell never changes
another. -/

/-- A heap of Python list-of-`Order` objects; a reference is an index. -/
structure OrdersHeap where
  cells : List (List Order)
deriving DecidableEq, Repr

/-- Dereference: the contents of the list object `r` points to. -/
def OrdersHeap.get (h : OrdersHeap) (r : Nat) : List Order :=
  h.cells.getD r []

/-- Allocate a fresh list object with contents `v`; returns the new
reference (distinct from every reference valid in `h`). -/
def OrdersHeap.alloc (h : OrdersHeap) (v : List Order) : Nat × OrdersHeap :=
  (h.cells.length, ⟨h.cells ++ [v]⟩)

/-- In-place update of the list object `r` points to. -/
def OrdersHeap.set (h : OrdersHeap) (r : Nat) (v : List Order) : OrdersHeap :=
  ⟨h.cells.set r v⟩

/-- Python `lst.append(x)` on the list object `r` points to. -/
def OrdersHeap.push (h : OrdersHeap) (r : Nat) (x : Order) : OrdersHeap :=
  h.set r (h.get r ++ [x])

/-- The heap view of a `User`: the reference its `_orders` field holds. -/
structure UserRef where
  orders_ref : Nat
deriving DecidableEq, Repr

/-- `User.get_orders` in the heap view: `return self._orders.copy()`
reads the internal list and allocates a fresh list object with the same
contents; the internal reference and every existing cell are left
untouched. -/
def UserRef.get_orders (u : UserRef) (h : OrdersHeap) : Nat × OrdersHeap :=
  h.alloc (h.get u.orders_ref)

/-! ### Shared concrete values for witnesses -/

/-- A concrete candy item. -/
def gum : Candy := { name := "gum", price := 2, quantity := 5 }

/-- A concrete payment method. -/
def pmCash : PaymentMethod := { method := "cash" }

/-- The user of the spec's scenario:
`id=1, name="Ann", email="a@b.com", password="secret123"`. -/
def ann : User := User.init 1 "Ann" "a@b.com" "secret123"

/-! ### C7 — login -/

/-- C7: `login(email, password)` returns true iff the supplied email
equals the stored email and the supplied password equals the stored
password, by exact (case-sensitive) string equality; any mismatch gives
false.  `login` is embedded as a pure `Bool`-valued function — it raises
nothing and mutates nothing. -/
theorem login_iff_exact_match (u : User) (email password : String) :
    u.login email password = true ↔ u.email = email ∧ u.password = password := by
  simp [User.login, Bool.and_eq_true, beq_iff_eq]

/-! ### C1 — change_password -/

/-- C1: `change_password(old, new)` returns false and leaves the whole
user (in particular the stored password) unchanged when `old` is wrong —
even when `new` is short, since the length check runs only after the
old-password check passes; raises `ValueError` (the spec's
`ValidationError`) with the user unchanged when `old` is right but
`new` has fewer than 8 characters; and otherwise returns true, replaces
the password, and afterwards `login` succeeds with the stored email and
`new` and (when `old ≠ new`) no longer with `old`. -/
theorem change_password_spec (u : User) (old_password new_password : String) :
    (u.password ≠ old_password →
      u.change_password old_password new_password = (.ok false, u))
    ∧ (u.password = old_password → new_password.length < 8 →
      u.change_password old_password new_password
        = (.error (.valueError "new_password must be at least 8 characters"), u))
    ∧ (u.password = old_password → 8 ≤ new_password.length →
      u.change_password old_password new_password
          = (.ok true, { u with password := new_password })
        ∧ ((u.change_password old_password new_password).2).login u.email
            new_password = true
        ∧ (old_password ≠ new_password →
          ((u.change_password old_password new_password).2).login u.email
              old_password = false)) := by
  refine ⟨fun hw => ?_, fun hr hs => ?_, fun hr hl => ?_⟩
  · simp [User.change_password, hw]
  · simp [User.change_password, hr, hs]
  · have hcp : u.change_password old_password new_password
        = (.ok true, { u with password := new_password }) := by
      simp [User.change_password, hr, Nat.not_lt.mpr hl]
    refine ⟨hcp, ?_, fun hne => ?_⟩
    · simp [hcp, User.login]
    · have hne' : new_password ≠ old_password := fun hcontra => hne hcontra.symm
      simp [hcp, User.login, hne']

/-- C1 witness: the spec's scenario user; a correct old password and the
8-character-plus `"longenough1"` go through, after which login works
with the new password and not the old one. -/
theorem change_password_spec_witness :
    ann.change_password "secret123" "longenough1"
        = (.ok true, { ann with password := "longenough1" })
      ∧ ((ann.change_password "secret123" "longenough1").2).login "a@b.com"
          "longenough1" = true
      ∧ ((ann.change_password "secret123" "longenough1").2).login "a@b.com"
          "secret123" = false :=
  have h := (change_password_spec ann "secret123" "longenough1").2.2 rfl
    (by decide)
  ⟨h.1, h.2.1, h.2.2 (by decide)⟩

/-! ### C5 — validate -/

/-- C5: `validate()` succeeds exactly when the id is non-negative, the
name is non-blank, and the email contains `"@"` with a `"."` in the
substring after the last `"@"`; in every other case it raises
`ValueError` (the spec's `ValidationError`).  It is embedded as a pure
function of the current field values: it mutates nothing. -/
theorem validate_spec (u : User) :
    (u.validate = .ok () ↔
      (0 ≤ u.person_id ∧ pyStrip u.name ≠ ""
        ∧ pyCharIn '@' u.email = true
        ∧ pyCharIn '.' (emailDomain u.email) = true))
    ∧ (¬ (0 ≤ u.person_id ∧ pyStrip u.name ≠ ""
        ∧ pyCharIn '@' u.email = true
        ∧ pyCharIn '.' (emailDomain u.email) = true) →
      ∃ m, u.validate = .error (.valueError m)) := by
  unfold User.validate
  by_cases h1 : u.person_id < 0
  · rw [if_pos h1]
    exact ⟨⟨fun hc => by simp at hc, fun hc => by omega⟩, fun _ => ⟨_, rfl⟩⟩
  · rw [if_neg h1]
    by_cases h2 : pyStrip u.name = ""
    · rw [if_pos h2]
      refine ⟨⟨fun hc => by simp at hc, fun hc => absurd h2 hc.2.1⟩,
        fun _ => ⟨_, rfl⟩⟩
    · rw [if_neg h2]
      by_cases h3 : (!(pyCharIn '@' u.email)
          || !(pyCharIn '.' (emailDomain u.email))) = true
      · rw [if_pos h3]
        refine ⟨⟨fun hc => by simp at hc, fun hc => ?_⟩, fun _ => ⟨_, rfl⟩⟩
        simp [hc.2.2.1, hc.2.2.2] at h3
      · rw [if_neg h3]
        have h4 : pyCharIn '@' u.email = true
            ∧ pyCharIn '.' (emailDomain u.email) = true := by
          constructor
          · by_cases ha : pyCharIn '@' u.email = true
            · exact ha
            · rw [Bool.not_eq_true] at ha
              exact absurd (by simp [ha]) h3
          · by_cases hd : pyCharIn '.' (emailDomain u.email) = true
            · exact hd
            · rw [Bool.not_eq_true] at hd
              exact absurd (by simp [hd]) h3
        exact ⟨⟨fun _ => ⟨by omega, h2, h4.1, h4.2⟩, fun _ => rfl⟩,
          fun hc => absurd ⟨by omega, h2, h4.1, h4.2⟩ hc⟩

/-- C5 witness: `"a@b.com"` with a non-blank name and id 1 validates;
`"a@b"` (no `"."` after the `"@"`) raises; and a name that is a single
vertical tab — whitespace for Python's `str.strip()` — is blank, so it
raises too. -/
theorem validate_spec_witness :
    ((User.init 1 "Ann" "a@b.com" "x").validate = .ok ())
    ∧ (∃ m, (User.init 1 "Ann" "a@b" "x").validate
        = .error (.valueError m))
    ∧ (∃ m, (User.init 1 "\x0B" "a@b.com" "x").validate
        = .error (.valueError m)) :=
  ⟨(validate_spec (User.init 1 "Ann" "a@b.com" "x")).1.mpr (by decide),
    (validate_spec (User.init 1 "Ann" "a@b" "x")).2 (by decide),
    (validate_spec (User.init 1 "\x0B" "a@b.com" "x")).2 (by decide)⟩

/-! ### C2 — checkout and the empty cart -/

/-- C2: `checkout` raises `ValueError("Cart is empty")` (the spec's
`EmptyCartError`) exactly when no cart exists; on that failure path the
user — order history and cart included — is unchanged; and after a
successful checkout the cart still exists (cleared, not deleted), so a
second checkout does not raise the empty-cart error. -/
theorem checkout_empty_cart_spec (u : User) (pm : PaymentMethod) :
    ((u.checkout pm).1 = .error (.valueError "Cart is empty") ↔ u.cart = none)
    ∧ (u.cart = none →
      u.checkout pm = (.error (.valueError "Cart is empty"), u))
    ∧ (∀ (c : ShoppingCart), u.cart = some c →
      ((u.checkout pm).2).cart = some c.clear
        ∧ ∀ (pm₂ : PaymentMethod),
          (((u.checkout pm).2).checkout pm₂).1
            = .ok (c.clear.create_order pm₂)) := by
  refine ⟨⟨fun he => ?_, fun hn => ?_⟩, fun hn => ?_, fun c hc => ?_⟩
  · cases hu : u.cart with
    | none => rfl
    | some c => rw [User.checkout, hu] at he; simp at he
  · rw [User.checkout, hn]
  · rw [User.checkout, hn]
  · rw [User.checkout, hc]
    exact ⟨rfl, fun pm₂ => rfl⟩

/-- C2 witness: a user who has added one item has a cart; its checkout
clears the cart, and a second checkout on the cleared cart returns an
order rather than raising. -/
theorem checkout_empty_cart_spec_witness :
    (((ann.add_to_cart gum 2).checkout pmCash).2).cart
        = some (ShoppingCart.clear ⟨1, [(gum, 2)]⟩)
      ∧ ∀ (pm₂ : PaymentMethod),
        ((((ann.add_to_cart gum 2).checkout pmCash).2).checkout pm₂).1
          = .ok ((ShoppingCart.clear ⟨1, [(gum, 2)]⟩).create_order pm₂) :=
  (checkout_empty_cart_spec (ann.add_to_cart gum 2) pmCash).2.2
    ⟨1, [(gum, 2)]⟩ rfl

/-! ### C3 — cart lifecycle -/

/-- C3: the cart starts absent; the first `add_to_cart` creates a fresh
cart owned by the user and delegates the addition to it; `add_to_cart`
on an existing cart only delegates to that cart; and from the moment a
cart exists, any sequence of `add_to_cart`/`checkout` operations leaves
in place the very cart created first, transformed only by its own
`add_item`/`clear` methods (`ShoppingCart.traceOp`) — it is never
destroyed or replaced. -/
theorem cart_lifecycle_spec :
    (∀ (i : Int) (n e p : String), (User.init i n e p).cart = none)
    ∧ (∀ (u : User) (candy : Candy) (q : Int), u.cart = none →
      (u.add_to_cart candy q).cart
        = some ((ShoppingCart.mk u.person_id []).add_item candy q))
    ∧ (∀ (u : User) (c : ShoppingCart) (candy : Candy) (q : Int),
      u.cart = some c →
      (u.add_to_cart candy q).cart = some (c.add_item candy q))
    ∧ (∀ (u : User) (c : ShoppingCart) (ops : List StoreOp),
      u.cart = some c →
      (u.runOps ops).cart = some (ops.foldl ShoppingCart.traceOp c)) := by
  have haddn : ∀ (u : User) (candy : Candy) (q : Int), u.cart = none →
      (u.add_to_cart candy q).cart
        = some ((ShoppingCart.mk u.person_id []).add_item candy q) := by
    intro u candy q hn
    rw [User.add_to_cart, hn]
  have hadds : ∀ (u : User) (c : ShoppingCart) (candy : Candy) (q : Int),
      u.cart = some c →
      (u.add_to_cart candy q).cart = some (c.add_item candy q) := by
    intro u c candy q hc
    rw [User.add_to_cart, hc]
  refine ⟨fun i n e p => rfl, haddn, hadds, fun u c ops => ?_⟩
  induction ops generalizing u c with
  | nil => intro hc; simpa [User.runOps] using hc
  | cons op rest ih =>
      intro hc
      have hstep : (u.applyOp op).cart = some (c.traceOp op) := by
        cases op with
        | add candy q => exact hadds u c candy q hc
        | pay pm => rw [User.applyOp, User.checkout, hc]; rfl
      simpa [User.runOps, List.foldl_cons] using ih (u.applyOp op) (c.traceOp op) hstep

/-- C3 witness: after a first addition created the cart `⟨1, [(gum, 1)]⟩`,
an addition followed by a checkout leaves exactly that cart transformed
by its own `add_item` then `clear` — i.e. the same (now empty) cart. -/
theorem cart_lifecycle_spec_witness :
    ((ann.add_to_cart gum 1).runOps [.add gum 2, .pay pmCash]).cart
      = some ([StoreOp.add gum 2, StoreOp.pay pmCash].foldl
          ShoppingCart.traceOp ⟨1, [(gum, 1)]⟩) :=
  cart_lifecycle_spec.2.2.2 (ann.add_to_cart gum 1) ⟨1, [(gum, 1)]⟩
    [.add gum 2, .pay pmCash] rfl

/-! ### C4 — successful checkout -/

/-- C4: when a cart exists, `checkout` returns exactly the order the
cart materializes from the payment method, appends it (and nothing
else) at the end of the order history, and clears the cart; afterwards
the last element of `get_orders()` is the returned order and the
history is longer by exactly one. -/
theorem checkout_success_spec (u : User) (pm : PaymentMethod)
    (c : ShoppingCart) (hc : u.cart = some c) :
    u.checkout pm = (.ok (c.create_order pm),
        { u with orders := u.orders ++ [c.create_order pm],
                 cart := some c.clear })
    ∧ ((u.checkout pm).2).get_orders = u.get_orders ++ [c.create_order pm]
    ∧ ((u.checkout pm).2).get_orders.getLast? = some (c.create_order pm)
    ∧ ((u.checkout pm).2).orders.length = u.orders.length + 1 := by
  have h : u.checkout pm = (.ok (c.create_order pm),
      { u with orders := u.orders ++ [c.create_order pm],
               cart := some c.clear }) := by
    rw [User.checkout, hc]
  refine ⟨h, ?_, ?_, ?_⟩
  · rw [h]; rfl
  · rw [h]
    exact List.getLast?_concat _
  · rw [h]
    simp [User.get_orders]

/-- C4 witness: checking out the one-item cart `⟨1, [(gum, 2)]⟩` appends
its order to Ann's empty history and clears the cart. -/
theorem checkout_success_spec_witness :
    (ann.add_to_cart gum 2).checkout pmCash
        = (.ok (ShoppingCart.create_order ⟨1, [(gum, 2)]⟩ pmCash),
          { ann.add_to_cart gum 2 with
              orders := [ShoppingCart.create_order ⟨1, [(gum, 2)]⟩ pmCash],
              cart := some (ShoppingCart.clear ⟨1, [(gum, 2)]⟩) })
      ∧ (((ann.add_to_cart gum 2).checkout pmCash).2).get_orders.getLast?
        = some (ShoppingCart.create_order ⟨1, [(gum, 2)]⟩ pmCash)
      ∧ (((ann.add_to_cart gum 2).checkout pmCash).2).orders.length
        = (ann.add_to_cart gum 2).orders.length + 1 :=
  have h := checkout_success_spec (ann.add_to_cart gum 2) pmCash
    ⟨1, [(gum, 2)]⟩ rfl
  ⟨h.1, h.2.2.1, h.2.2.2⟩

/-! ### C6 — get_orders returns a defensive copy -/

/-- Reading an index other than the one just written is unaffected by a
`List.set`. -/
theorem listGetD_set_ne {α : Type} (l : List α) (i j : Nat) (v d : α)
    (hij : i ≠ j) : (l.set i v).getD j d = l.getD j d := by
  simp [List.getD_eq_getElem?_getD, List.getElem?_set_ne hij]

/-- Reading the position right past a list after appending one element
yields that element. -/
theorem listGetD_concat_length {α : Type} (l : List α) (v d : α) :
    (l ++ [v]).getD l.length d = v := by
  rw [List.getD_append_right _ _ _ _ (le_refl _)]
  simp

/-- A concrete order for the heap-view witness. -/
def sampleOrder : Order := { total_amount := mkRat 21 2, payment_method := pmCash }

/-- C6: in the heap view of Python list objects, `get_orders` returns a
*fresh* list object (a different reference than the internal `_orders`),
with the same contents; the call changes neither the user's record nor
the internal list; appending to the returned object leaves the internal
history unchanged; and a later `get_orders` still returns the original
contents. -/
theorem get_orders_defensive (h : OrdersHeap) (u : UserRef) (x : Order)
    (hv : u.orders_ref < h.cells.length) :
    (u.get_orders h).1 ≠ u.orders_ref
    ∧ ((u.get_orders h).2).get u.orders_ref = h.get u.orders_ref
    ∧ ((u.get_orders h).2).get (u.get_orders h).1 = h.get u.orders_ref
    ∧ (((u.get_orders h).2).push (u.get_orders h).1 x).get u.orders_ref
        = h.get u.orders_ref
    ∧ ((u.get_orders (((u.get_orders h).2).push (u.get_orders h).1 x)).2).get
          (u.get_orders (((u.get_orders h).2).push (u.get_orders h).1 x)).1
        = h.get u.orders_ref := by
  rcases h with ⟨cells⟩
  simp only [UserRef.get_orders, OrdersHeap.alloc, OrdersHeap.get,
    OrdersHeap.push, OrdersHeap.set] at *
  have e2 : (cells ++ [cells.getD u.orders_ref []]).getD u.orders_ref []
      = cells.getD u.orders_ref [] := List.getD_append _ _ _ _ hv
  have e3 : (cells ++ [cells.getD u.orders_ref []]).getD cells.length []
      = cells.getD u.orders_ref [] := listGetD_concat_length _ _ _
  have e4 : ((cells ++ [cells.getD u.orders_ref []]).set cells.length
        ((cells ++ [cells.getD u.orders_ref []]).getD cells.length [] ++ [x])).getD
        u.orders_ref []
      = cells.getD u.orders_ref [] := by
    rw [listGetD_set_ne _ _ _ _ _ (by omega), e2]
  refine ⟨by omega, e2, e3, e4, ?_⟩
  rw [listGetD_concat_length, e4]

/-- C6 witness: one internal history cell holding one order; the copy is
a new reference, appending `sampleOrder` to it leaves the internal cell
as it was, and a later `get_orders` still reads the one-order history. -/
theorem get_orders_defensive_witness :
    ((UserRef.mk 0).get_orders ⟨[[sampleOrder]]⟩).1 ≠ 0
    ∧ (((UserRef.mk 0).get_orders ⟨[[sampleOrder]]⟩).2).get 0
        = (OrdersHeap.mk [[sampleOrder]]).get 0
    ∧ (((UserRef.mk 0).get_orders ⟨[[sampleOrder]]⟩).2).get
          ((UserRef.mk 0).get_orders ⟨[[sampleOrder]]⟩).1
        = (OrdersHeap.mk [[sampleOrder]]).get 0
    ∧ ((((UserRef.mk 0).get_orders ⟨[[sampleOrder]]⟩).2).push
          ((UserRef.mk 0).get_orders ⟨[[sampleOrder]]⟩).1 sampleOrder).get 0
        = (OrdersHeap.mk [[sampleOrder]]).get 0
    ∧ (((UserRef.mk 0).get_orders
            ((((UserRef.mk 0).get_orders ⟨[[sampleOrder]]⟩).2).push
              ((UserRef.mk 0).get_orders ⟨[[sampleOrder]]⟩).1 sampleOrder)).2).get
          ((UserRef.mk 0).get_orders
            ((((UserRef.mk 0).get_orders ⟨[[sampleOrder]]⟩).2).push
              ((UserRef.mk 0).get_orders ⟨[[sampleOrder]]⟩).1 sampleOrder)).1
        = (OrdersHeap.mk [[sampleOrder]]).get 0 :=
  get_orders_defensive ⟨[[sampleOrder]]⟩ ⟨0⟩ sampleOrder (by decide)

/-! ### C8 — view_sales_report -/

/-- A concrete staff member. -/
def annStaff : Staff := { toUser := ann, position := "manager" }

unseal Rat.add Rat.mul in
/-- Evaluation of the empty-list report on a concrete staff member. -/
theorem empty_report_eval :
    annStaff.view_sales_report [] = "Total sales: $0.00" := by
  decide

unseal Rat.add Rat.mul in
/-- Evaluation of the spec's two-order report (10.5 and 4.25 with a
concrete payment method on each order) on a concrete staff member. -/
theorem two_order_report_eval :
    annStaff.view_sales_report
        [{ total_amount := mkRat 21 2, payment_method := pmCash },
         { total_amount := mkRat 17 4, payment_method := pmCash }]
      = "Total sales: $14.75" := by
  decide

/-- C8: `view_sales_report(orders)` is `"Total sales: $"` followed by
the sum of the orders' `total_amount` values rendered with exactly two
decimal places; it depends only on the argument list (any two staff
members produce the same string, so the staff member's own history is
never consulted); the empty list gives `"Total sales: $0.00"` and
`[{totalAmount: 10.5}, {totalAmount: 4.25}]` gives
`"Total sales: $14.75"`.  It is embedded as a pure function: no side
effects. -/
theorem view_sales_report_spec :
    (∀ (s : Staff) (orders : List Order),
      s.view_sales_report orders
        = "Total sales: $"
            ++ formatTwoDecimals ((orders.map Order.total_amount).sum))
    ∧ (∀ (s₁ s₂ : Staff) (orders : List Order),
      s₁.view_sales_report orders = s₂.view_sales_report orders)
    ∧ (∀ (s : Staff), s.view_sales_report [] = "Total sales: $0.00")
    ∧ (∀ (s : Staff),
      s.view_sales_report
          [{ total_amount := mkRat 21 2, payment_method := pmCash },
           { total_amount := mkRat 17 4, payment_method := pmCash }]
        = "Total sales: $14.75") :=
  ⟨fun _ _ => rfl, fun _ _ _ => rfl,
    fun _ => empty_report_eval,
    fun _ => two_order_report_eval⟩

/-! ### C9 — error kinds -/

/-- C9 counterexample: the claim says the validation failure and the
empty-cart failure are two *distinct, caller-distinguishable exception
kinds* (`ValidationError` vs `EmptyCartError`); in the code both are the
single built-in class `ValueError` — the short-new-password error and
the no-cart checkout error have the same exception class, so no
class-based `except` clause separates them. -/
theorem error_kinds_counterexample :
    (ann.change_password "secret123" "short").1
        = .error (.valueError "new_password must be at least 8 characters")
    ∧ (ann.checkout pmCash).1 = .error (.valueError "Cart is empty")
    ∧ PyErr.className
          (.valueError "new_password must be at least 8 characters")
        = PyErr.className (.valueError "Cart is empty") :=
  ⟨by decide, by decide, rfl⟩

/-- C9 amended: every failure this layer raises is the single exception
class `ValueError`; the empty-cart failure carries the fixed message
`"Cart is empty"` while every validation/change-password failure carries
a different message, so the two failure conditions are distinguishable
by message (not by class); and the false-returning path of
`change_password` (and `login`, which is `Bool`-valued and raises
nothing by construction) is an ordinary boolean return, never an
exception. -/
theorem error_kinds_amended :
    (∀ (u : User) (o np : String) (e : PyErr),
      (u.change_password o np).1 = .error e →
        e.className = "ValueError"
          ∧ e.msg = "new_password must be at least 8 characters")
    ∧ (∀ (u : User) (pm : PaymentMethod) (e : PyErr),
      (u.checkout pm).1 = .error e →
        e.className = "ValueError" ∧ e.msg = "Cart is empty")
    ∧ (∀ (u : User) (e : PyErr), u.validate = .error e →
        e.className = "ValueError" ∧ e.msg ≠ "Cart is empty")
    ∧ (∀ (u : User) (o np : String), u.password ≠ o →
      (u.change_password o np).1 = .ok false) := by
  refine ⟨fun u o np e he => ?_, fun u pm e he => ?_, fun u e he => ?_,
    fun u o np hw => ?_⟩
  · rw [User.change_password] at he
    by_cases h : u.password = o
    · by_cases hl : np.length < 8
      · simp [h, hl] at he
        subst he
        exact ⟨rfl, rfl⟩
      · simp [h, hl] at he
    · simp [h] at he
  · rw [User.checkout] at he
    cases hc : u.cart with
    | none =>
        rw [hc] at he
        simp at he
        subst he
        exact ⟨rfl, rfl⟩
    | some c => rw [hc] at he; simp at he
  · rw [User.validate] at he
    by_cases h1 : u.person_id < 0
    · simp [h1] at he
      subst he
      exact ⟨rfl, by decide⟩
    · by_cases h2 : pyStrip u.name = ""
      · simp [h1, h2] at he
        subst he
        exact ⟨rfl, by decide⟩
      · by_cases h3 : (!(pyCharIn '@' u.email)
            || !(pyCharIn '.' (emailDomain u.email))) = true
        · simp [h1, h2, h3] at he
          subst he
          exact ⟨rfl, by decide⟩
        · simp [h1, h2, h3] at he
  · simp [User.change_password, hw]

/-- C9 amended witness: a short new password with the right old password
raises the `ValueError` with the length message; a cartless checkout
raises the `ValueError` with `"Cart is empty"`; a wrong old password
returns plain `False`. -/
theorem error_kinds_amended_witness :
    (PyErr.className (.valueError "new_password must be at least 8 characters")
        = "ValueError"
      ∧ PyErr.msg (.valueError "new_password must be at least 8 characters")
        = "new_password must be at least 8 characters")
    ∧ (PyErr.className (.valueError "Cart is empty") = "ValueError"
      ∧ PyErr.msg (.valueError "Cart is empty") = "Cart is empty")
    ∧ (ann.change_password "bad" "short").1 = .ok false :=
  ⟨(error_kinds_amended.1 ann "secret123" "short"
      (.valueError "new_password must be at least 8 characters") (by decide)),
    (error_kinds_amended.2.1 ann pmCash (.valueError "Cart is empty")
      (by decide)),
    error_kinds_amended.2.2.2 ann "bad" "short" (by decide)⟩

/-! ### C10 — email_verified is never touched -/

/-- C10: `email_verified` is `False` at construction and no operation of
this layer changes it: `change_password`, `add_to_cart` and `checkout`
preserve it one step at a time and along any operation sequence — and
`login`, `validate`, `get_orders`, `get_cart`, `update_inventory` and
`view_sales_report` are embedded as pure functions that return no
updated user at all (the source never assigns any attribute in them). -/
theorem email_verified_spec :
    (∀ (i : Int) (n e p : String), (User.init i n e p).email_verified = false)
    ∧ (∀ (u : User) (o np : String),
      ((u.change_password o np).2).email_verified = u.email_verified)
    ∧ (∀ (u : User) (candy : Candy) (q : Int),
      (u.add_to_cart candy q).email_verified = u.email_verified)
    ∧ (∀ (u : User) (pm : PaymentMethod),
      ((u.checkout pm).2).email_verified = u.email_verified)
    ∧ (∀ (u : User) (ops : List StoreOp),
      (u.runOps ops).email_verified = u.email_verified) := by
  have hcp : ∀ (u : User) (o np : String),
      ((u.change_password o np).2).email_verified = u.email_verified := by
    intro u o np
    by_cases h : u.password = o
    · by_cases hl : np.length < 8 <;> simp [User.change_password, h, hl]
    · simp [User.change_password, h]
  have hadd : ∀ (u : User) (candy : Candy) (q : Int),
      (u.add_to_cart candy q).email_verified = u.email_verified := by
    intro u candy q
    cases hc : u.cart <;> simp [User.add_to_cart, hc]
  have hco : ∀ (u : User) (pm : PaymentMethod),
      ((u.checkout pm).2).email_verified = u.email_verified := by
    intro u pm
    cases hc : u.cart <;> simp [User.checkout, hc]
  refine ⟨fun i n e p => rfl, hcp, hadd, hco, fun u ops => ?_⟩
  induction ops generalizing u with
  | nil => rfl
  | cons op rest ih =>
      have hstep : (u.applyOp op).email_verified = u.email_verified := by
        cases op with
        | add candy q => exact hadd u candy q
        | pay pm => exact hco u pm
      calc (u.runOps (op :: rest)).email_verified
          = ((u.applyOp op).runOps rest).email_verified := rfl
        _ = (u.applyOp op).email_verified := ih (u.applyOp op)
        _ = u.email_verified := hstep

end CandyStore
